import Mathlib

/-!
Verification of `touchpad-emulator.c` (whot/touchpad-emulator).

The program relays events from a physical input device onto a virtual
uinput device, rescaling the positional axes.  We shallowly embed the
core of the program:

* `map_event` (C lines 96-118): the coordinate transform.  The C code
  computes in `double`; we model the real-number computation in `ℚ`
  (every operation used — subtraction, division, multiplication,
  addition by halves of integers — is exact on the inputs of interest)
  and the C cast `(int)val` as truncation toward zero (`trunc`).
* `handle_event` / `pass_event` (C lines 88-143): the classifier and
  dispatcher.  `pass_event` writes the event to the destination fd; we
  model it as producing the forwarded event, and `handle_event` as the
  event that ends up forwarded.
* `mainloop` (C lines 145-184): the poll loop.  We model an execution
  as a finite trace of wakes: each `Wake` is one `poll` call that
  returned nonzero (with `poll(..., -1)` a zero return never happens in
  practice, but the code handles it: the `while` condition is falsy and
  the loop exits).  The end of the trace list models `poll` returning
  zero.  A wake records whether `pollfd[1].revents` (the signalfd) was
  nonzero, the successfully read events of the inner drain loop in
  order, and the terminal status that ended the drain (`-EAGAIN`, a
  sync-loss report, or another error).  `mainloop` returns the C return
  value together with the list of events forwarded to the destination.
* `main` (C lines 186-268): the session controller.  An `Env` records
  the success of each fallible setup step, the two devices, the result
  of `libevdev_grab` (which the C code discards), and the poll trace.
  `main` returns the process exit status together with the trace of
  grab / loop / ungrab actions that were executed, in order.  The
  `printf`-only steps (the Nyquist warnings, line 247-259, and the
  mapping trace in `map_event`) are observability only and are not
  modelled.
-/

set_option linter.unusedVariables false

namespace TouchpadEmulator

/-- `EV_ABS` from `<linux/input-event-codes.h>`. -/
def EV_ABS : Nat := 3

/-- `ABS_X`. -/
def ABS_X : Nat := 0

/-- `ABS_Y`. -/
def ABS_Y : Nat := 1

/-- `ABS_MT_POSITION_X` (0x35). -/
def ABS_MT_POSITION_X : Nat := 53

/-- `ABS_MT_POSITION_Y` (0x36). -/
def ABS_MT_POSITION_Y : Nat := 54

/-- `struct input_absinfo`, restricted to the three fields the program
reads (minimum, maximum, resolution).  This is the spec's `AxisRange`. -/
structure input_absinfo where
  minimum : Int
  maximum : Int
  resolution : Int
  deriving Repr, DecidableEq

/-- A well-formed axis range: the declared minimum does not exceed the
declared maximum (spec data model: "declared minimum, maximum"). -/
def input_absinfo.wellFormed (r : input_absinfo) : Prop :=
  r.minimum ≤ r.maximum

instance (r : input_absinfo) : Decidable r.wellFormed := by
  unfold input_absinfo.wellFormed; infer_instance

/-- `struct input_event`: timestamp (sec, usec), type, code, value. -/
structure input_event where
  time_sec : Int
  time_usec : Int
  type : Nat
  code : Nat
  value : Int
  deriving Repr, DecidableEq

/-- The source device (`struct libevdev`), as the program uses it: a
table of axis ranges, queried by `libevdev_get_abs_info`. -/
structure libevdev where
  absinfo : Nat → input_absinfo

/-- The destination recording (`struct evemu_device`), as the program
uses it: per-code getters `evemu_get_abs_minimum` / `_maximum` /
`_resolution`. -/
structure evemu_device where
  abs_minimum : Nat → Int
  abs_maximum : Nat → Int
  abs_resolution : Nat → Int

/-- The C cast `(int)val`: truncation of a real number toward zero. -/
def trunc (q : ℚ) : Int :=
  if 0 ≤ q then ⌊q⌋ else ⌈q⌉

/-- The value computation of `map_event` (C lines 110-117), for one
source range, one destination range and one input value:

    val = (value - src.minimum - (src.maximum - src.minimum)/2.0)/src.resolution;
    val = val * dst.resolution + (dst.maximum - dst.minimum)/2.0 + dst.minimum;
    result = max(dst.minimum, min(dst.maximum, (int)val));
-/
def map_event_val (src dst : input_absinfo) (value : Int) : Int :=
  let val : ℚ :=
    ((value : ℚ) - (src.minimum : ℚ) -
      ((src.maximum : ℚ) - (src.minimum : ℚ)) / 2) / (src.resolution : ℚ)
  let val : ℚ :=
    val * (dst.resolution : ℚ) +
      ((dst.maximum : ℚ) - (dst.minimum : ℚ)) / 2 + (dst.minimum : ℚ)
  max dst.minimum (min dst.maximum (trunc val))

/-- `map_event` (C lines 96-118): fetch the two axis ranges for the
event's code and overwrite the event's value with the mapped value. -/
def map_event (source : libevdev) (dest : evemu_device)
    (event : input_event) : input_event :=
  let src := source.absinfo event.code
  let dst : input_absinfo :=
    ⟨dest.abs_minimum event.code, dest.abs_maximum event.code,
      dest.abs_resolution event.code⟩
  { event with value := map_event_val src dst event.value }

/-- `pass_event` (C lines 88-94): replay the event onto the destination
fd (`evemu_play_one`).  Modelled as the event that is written. -/
def pass_event (dest : evemu_device) (destfd : Int)
    (event : input_event) : input_event :=
  event

/-- `handle_event` (C lines 120-143): non-`EV_ABS` events are passed
through unmodified; `EV_ABS` events on the four positional axis codes
are mapped first; all other `EV_ABS` codes pass through.  The result is
the event forwarded to the destination. -/
def handle_event (source : libevdev) (dest : evemu_device) (destfd : Int)
    (event : input_event) : input_event :=
  if event.type ≠ EV_ABS then
    pass_event dest destfd event
  else if event.code = ABS_X ∨ event.code = ABS_Y ∨
      event.code = ABS_MT_POSITION_X ∨ event.code = ABS_MT_POSITION_Y then
    pass_event dest destfd (map_event source dest event)
  else
    pass_event dest destfd event

/-- The status that ends one drain of `libevdev_next_event` calls
inside a poll wake (C lines 168-180): `-EAGAIN` (drained, keep
polling), `LIBEVDEV_READ_STATUS_SYNC` (sync loss, fatal), or another
negative return `-e` with `e ≠ EAGAIN` (fatal). -/
inductive Terminal where
  | again : Terminal
  | sync : Terminal
  | err : Nat → Terminal
  deriving Repr, DecidableEq

/-- One wake of `poll` that returned nonzero: whether
`pollfd[1].revents` (the SIGINT signalfd) was nonzero, the events
successfully read by the drain loop in order, and the status that
ended the drain. -/
structure Wake where
  revents1 : Bool
  events : List input_event
  terminal : Terminal
  deriving Repr, DecidableEq

/-- `mainloop` (C lines 145-184) over a trace of poll wakes.  Returns
the C return value (0 on clean exit, 1 on sync loss or read error) and
the list of events forwarded to the destination.  The empty trace is a
`poll` call returning zero: the `while` condition is falsy and the
function returns 0. -/
def mainloop (source : libevdev) (dest : evemu_device) (destfd : Int) :
    List Wake → Int × List input_event
  | [] => (0, [])
  | w :: ws =>
    if w.revents1 then
      (0, [])
    else
      match w.terminal with
      | Terminal.sync => (1, w.events.map (handle_event source dest destfd))
      | Terminal.err _ => (1, w.events.map (handle_event source dest destfd))
      | Terminal.again =>
        let r := mainloop source dest destfd ws
        (r.1, w.events.map (handle_event source dest destfd) ++ r.2)

/-- A step of the grab/loop/ungrab sequence executed by `main` after
setup (C lines 261-265). -/
inductive Action where
  | grab : Action
  | loopRet : Int → Action
  | ungrab : Action
  deriving Repr, DecidableEq

/-- The environment of one run of `main`: the outcome of each fallible
setup step, the devices, the return value of `libevdev_grab`, and the
poll trace consumed by `mainloop`. -/
structure Env where
  /-- argc == 5, argv[1] == "dest", argv[3] == "source" (C lines 198-200). -/
  args_ok : Bool
  /-- `fopen(argv[2], "r")` succeeded (C line 205). -/
  fopen_ok : Bool
  /-- `open(argv[4], O_RDONLY|O_NONBLOCK)` succeeded (C line 211). -/
  open_source_ok : Bool
  /-- `libevdev_new_from_fd` succeeded (C line 217). -/
  evdev_init_ok : Bool
  /-- `evemu_read` succeeded (C line 225). -/
  evemu_read_ok : Bool
  /-- `evemu_create_managed` succeeded (C line 232). -/
  evemu_create_ok : Bool
  /-- `open(new_devnode, O_RDWR|O_NONBLOCK)` succeeded (C line 240). -/
  open_dest_ok : Bool
  /-- Return value of `libevdev_grab(source, LIBEVDEV_GRAB)` (C line
  263).  The C code discards it. -/
  grab_rc : Int
  source : libevdev
  dest : evemu_device
  destfd : Int
  wakes : List Wake

/-- `main` (C lines 186-268): run the setup steps, each fatal on
failure with exit status 1; on success grab the source device, run
`mainloop`, ungrab, and return 0.  Returns the process exit status and
the trace of grab / loop / ungrab actions executed, in order.  Note
that the C code discards the return values of both `libevdev_grab`
(line 263) and `mainloop` (line 264) and reaches `return 0` (line 267)
whenever setup succeeded. -/
def main (env : Env) : Int × List Action :=
  if !env.args_ok then (1, [])
  else if !env.fopen_ok then (1, [])
  else if !env.open_source_ok then (1, [])
  else if !env.evdev_init_ok then (1, [])
  else if !env.evemu_read_ok then (1, [])
  else if !env.evemu_create_ok then (1, [])
  else if !env.open_dest_ok then (1, [])
  else
    let r := mainloop env.source env.dest env.destfd env.wakes
    (0, [Action.grab, Action.loopRet r.1, Action.ungrab])

/-! Concrete devices for the spec's concrete scenario: source axis
range {0, 100, 10}, destination axis range {0, 50, 5} on every code. -/

/-- Source device of the concrete scenario. -/
def srcC2 : libevdev :=
  ⟨fun _ => ⟨0, 100, 10⟩⟩

/-- Destination device of the concrete scenario. -/
def dstC2 : evemu_device :=
  ⟨fun _ => 0, fun _ => 50, fun _ => 5⟩

/-! Facts about truncation toward zero. -/

theorem floor_le_trunc (q : ℚ) : ⌊q⌋ ≤ trunc q := by
  unfold trunc
  split
  · exact le_refl _
  · exact Int.floor_le_ceil q

theorem trunc_le_ceil (q : ℚ) : trunc q ≤ ⌈q⌉ := by
  unfold trunc
  split
  · exact Int.floor_le_ceil q
  · exact le_refl _

theorem le_trunc_of_le {z : Int} {q : ℚ} (h : (z : ℚ) ≤ q) : z ≤ trunc q :=
  le_trans (Int.le_floor.mpr h) (floor_le_trunc q)

theorem trunc_le_of_le {z : Int} {q : ℚ} (h : q ≤ (z : ℚ)) : trunc q ≤ z :=
  le_trans (trunc_le_ceil q) (Int.ceil_le.mpr h)

/-- Truncation toward zero is monotone. -/
theorem trunc_mono {a b : ℚ} (h : a ≤ b) : trunc a ≤ trunc b := by
  unfold trunc
  by_cases ha : 0 ≤ a <;> by_cases hb : 0 ≤ b
  · rw [if_pos ha, if_pos hb]
    exact Int.floor_mono h
  · exact absurd (le_trans ha h) hb
  · rw [if_neg ha, if_pos hb]
    calc ⌈a⌉ ≤ 0 := Int.ceil_le.mpr (by push_cast; exact le_of_not_le ha)
      _ ≤ ⌊b⌋ := Int.le_floor.mpr (by push_cast; exact hb)
  · rw [if_neg ha, if_neg hb]
    exact Int.ceil_mono h

end TouchpadEmulator

namespace TouchpadEmulator

/-- C2: For source AxisRange {0, 100, 10} and destination AxisRange
{0, 50, 5}, `map_event` maps input value 50 to output 25, input value
0 to output 0, and input value 200 to output 50. -/
theorem c2_concrete_scenario :
    (map_event srcC2 dstC2 ⟨0, 0, EV_ABS, ABS_X, 50⟩).value = 25 ∧
    (map_event srcC2 dstC2 ⟨0, 0, EV_ABS, ABS_X, 0⟩).value = 0 ∧
    (map_event srcC2 dstC2 ⟨0, 0, EV_ABS, ABS_X, 200⟩).value = 50 := by
  refine ⟨?_, ?_, ?_⟩ <;>
    · simp only [map_event, map_event_val, srcC2, dstC2]
      norm_num [trunc]

/-- C7: For every pair of axis ranges with non-zero source resolution
(and a well-formed destination range), transforming the source range's
midpoint value `v` (characterised by `2 * v = minimum + maximum`)
yields a result that differs from the destination range's midpoint by
at most 1 unit. -/
theorem c7_midpoint_invariant (src dst : input_absinfo) (v : Int)
    (hres : src.resolution ≠ 0)
    (hmid : 2 * v = src.minimum + src.maximum)
    (hwf : dst.wellFormed) :
    |((map_event_val src dst v : Int) : ℚ) -
      ((dst.minimum : ℚ) + (dst.maximum : ℚ)) / 2| ≤ 1 := by
  simp only [map_event_val]
  have hc : ((v : ℚ) - (src.minimum : ℚ) -
      ((src.maximum : ℚ) - (src.minimum : ℚ)) / 2) = 0 := by
    have h2 : ((2 * v : Int) : ℚ) = ((src.minimum + src.maximum : Int) : ℚ) := by
      exact_mod_cast congrArg (fun z : Int => (z : ℚ)) hmid
    push_cast at h2
    linarith
  rw [hc, zero_div, zero_mul, zero_add]
  have hval : ((dst.maximum : ℚ) - (dst.minimum : ℚ)) / 2 + (dst.minimum : ℚ) =
      ((dst.minimum : ℚ) + (dst.maximum : ℚ)) / 2 := by ring
  rw [hval]
  have hwfQ : (dst.minimum : ℚ) ≤ (dst.maximum : ℚ) := by exact_mod_cast hwf
  have h1 : (dst.minimum : ℚ) ≤ ((dst.minimum : ℚ) + (dst.maximum : ℚ)) / 2 := by
    linarith
  have h2 : ((dst.minimum : ℚ) + (dst.maximum : ℚ)) / 2 ≤ (dst.maximum : ℚ) := by
    linarith
  have hlo : dst.minimum ≤ trunc (((dst.minimum : ℚ) + (dst.maximum : ℚ)) / 2) :=
    le_trunc_of_le h1
  have hhi : trunc (((dst.minimum : ℚ) + (dst.maximum : ℚ)) / 2) ≤ dst.maximum :=
    trunc_le_of_le h2
  rw [min_eq_right hhi, max_eq_right hlo]
  set m : ℚ := ((dst.minimum : ℚ) + (dst.maximum : ℚ)) / 2 with hm
  have fb : ((⌊m⌋ : Int) : ℚ) ≤ ((trunc m : Int) : ℚ) := by
    exact_mod_cast floor_le_trunc m
  have cb : ((trunc m : Int) : ℚ) ≤ ((⌈m⌉ : Int) : ℚ) := by
    exact_mod_cast trunc_le_ceil m
  have l1 : m - 1 < ((⌊m⌋ : Int) : ℚ) := Int.sub_one_lt_floor m
  have l2 : ((⌈m⌉ : Int) : ℚ) < m + 1 := Int.ceil_lt_add_one m
  rw [abs_le]
  constructor <;> linarith

/-- Witness for C7 at the concrete scenario's ranges, midpoint 50. -/
theorem c7_midpoint_invariant_witness :
    |((map_event_val ⟨0, 100, 10⟩ ⟨0, 50, 5⟩ 50 : Int) : ℚ) -
      (((0 : Int) : ℚ) + ((50 : Int) : ℚ)) / 2| ≤ 1 :=
  c7_midpoint_invariant ⟨0, 100, 10⟩ ⟨0, 50, 5⟩ 50 (by decide) (by decide)
    (by decide)

/-- C8: For every fixed pair of axis ranges with positive source and
destination resolutions, the coordinate transform is non-decreasing in
its input value. -/
theorem c8_transform_monotone (src dst : input_absinfo)
    (hs : 0 < src.resolution) (hd : 0 < dst.resolution)
    (v1 v2 : Int) (h : v1 ≤ v2) :
    map_event_val src dst v1 ≤ map_event_val src dst v2 := by
  simp only [map_event_val]
  have hsQ : (0 : ℚ) < (src.resolution : ℚ) := by exact_mod_cast hs
  have hdQ : (0 : ℚ) ≤ (dst.resolution : ℚ) := by exact_mod_cast hd.le
  have hvQ : (v1 : ℚ) ≤ (v2 : ℚ) := by exact_mod_cast h
  have hg : ((v1 : ℚ) - (src.minimum : ℚ) -
        ((src.maximum : ℚ) - (src.minimum : ℚ)) / 2) / (src.resolution : ℚ) *
          (dst.resolution : ℚ) +
        ((dst.maximum : ℚ) - (dst.minimum : ℚ)) / 2 + (dst.minimum : ℚ) ≤
      ((v2 : ℚ) - (src.minimum : ℚ) -
        ((src.maximum : ℚ) - (src.minimum : ℚ)) / 2) / (src.resolution : ℚ) *
          (dst.resolution : ℚ) +
        ((dst.maximum : ℚ) - (dst.minimum : ℚ)) / 2 + (dst.minimum : ℚ) := by
    gcongr
  exact max_le_max le_rfl (min_le_min le_rfl (trunc_mono hg))

/-- Witness for C8 at the concrete scenario's ranges, values 0 ≤ 50. -/
theorem c8_transform_monotone_witness :
    map_event_val ⟨0, 100, 10⟩ ⟨0, 50, 5⟩ 0 ≤
      map_event_val ⟨0, 100, 10⟩ ⟨0, 50, 5⟩ 50 :=
  c8_transform_monotone ⟨0, 100, 10⟩ ⟨0, 50, 5⟩ (by decide) (by decide)
    0 50 (by decide)

/-- C6: In every iteration of the event loop where the shutdown-signal
source is ready (`pollfd[1].revents` nonzero), the loop returns success
(0) without reading or dispatching any further source events — neither
the events of that wake nor those of any later wake. -/
theorem c6_shutdown_priority (source : libevdev) (dest : evemu_device)
    (destfd : Int) (evs : List input_event) (t : Terminal) (ws : List Wake) :
    mainloop source dest destfd (⟨true, evs, t⟩ :: ws) = (0, []) :=
  rfl

/-- C3 counterexample: when the readiness wait returns zero (the empty
trace), `mainloop` returns 0 (success), not the failure (1) the claim
requires. -/
theorem c3_counterexample :
    (mainloop srcC2 dstC2 0 []).1 = 0 ∧ (mainloop srcC2 dstC2 0 []).1 ≠ 1 := by
  constructor <;> decide

/-- C3 amended: if the readiness wait fires with no source ready
(`poll` returns zero), the `while` condition is falsy, so the loop
stops and returns success (0) — not failure. -/
theorem c3_poll_zero_returns_success (source : libevdev)
    (dest : evemu_device) (destfd : Int) :
    mainloop source dest destfd [] = (0, []) :=
  rfl

/-- C1 counterexample: a run in which setup succeeds and the event
loop reports a fatal condition (sync loss, return value 1, recorded in
the action trace as `loopRet 1`) still exits with process status 0,
not the status 1 the claim requires. -/
theorem c1_counterexample :
    main ⟨true, true, true, true, true, true, true, 0, srcC2, dstC2, 0,
        [⟨false, [], Terminal.sync⟩]⟩ =
      (0, [Action.grab, Action.loopRet 1, Action.ungrab]) ∧
    (main ⟨true, true, true, true, true, true, true, 0, srcC2, dstC2, 0,
        [⟨false, [], Terminal.sync⟩]⟩).1 ≠ 1 := by
  constructor <;> decide

/-- C1 amended: `main` discards the event loop's return value (C line
264): whenever the event loop ran, the process exit status is 0,
regardless of whether the loop returned success (0) or reported a
fatal condition (1). -/
theorem c1_exit_ignores_loop_result (env : Env) (c : Int)
    (h : Action.loopRet c ∈ (main env).2) :
    (main env).1 = 0 := by
  unfold main at h ⊢
  repeat' split at h
  all_goals simp_all

/-- Witness for C1's amended claim: the counterexample run, where the
loop reported the fatal value 1. -/
theorem c1_exit_ignores_loop_result_witness :
    (main ⟨true, true, true, true, true, true, true, 0, srcC2, dstC2, 0,
        [⟨false, [], Terminal.sync⟩]⟩).1 = 0 :=
  c1_exit_ignores_loop_result
    ⟨true, true, true, true, true, true, true, 0, srcC2, dstC2, 0,
      [⟨false, [], Terminal.sync⟩]⟩ 1 (by decide)

/-- C4 counterexample: a run in which `libevdev_grab` fails (returns
-1) but every other step succeeds still runs the event loop and exits
with status 0, not the status 1 the claim requires. -/
theorem c4_counterexample :
    main ⟨true, true, true, true, true, true, true, -1, srcC2, dstC2, 0, []⟩ =
      (0, [Action.grab, Action.loopRet 0, Action.ungrab]) ∧
    (main ⟨true, true, true, true, true, true, true, -1, srcC2, dstC2, 0,
        []⟩).1 ≠ 1 := by
  constructor <;> decide

/-- C4 amended: the session ignores the result of acquiring exclusive
control of the source device (C line 263 discards the return of
`libevdev_grab`): the grab result has no effect on the run — neither
on the exit status nor on the actions executed. -/
theorem c4_grab_failure_ignored (env : Env) (rc : Int) :
    main { env with grab_rc := rc } = main env :=
  rfl

/-- C5: After any run of the session controller, either no grab was
ever executed (the error paths that exit before acquisition), or the
actions executed are exactly grab, then the event loop, then ungrab —
the release happens after the loop returns, whatever the loop's
result `c` was. -/
theorem c5_grab_released_unconditionally (env : Env) :
    (main env).2 = [] ∨
      ∃ c, (main env).2 = [Action.grab, Action.loopRet c, Action.ungrab] := by
  unfold main
  repeat' split
  all_goals simp

/-- C9: every event whose type is not `EV_ABS`, and every event whose
code is not one of the four positional axis codes, is forwarded to the
destination unchanged (in particular with its value field unchanged). -/
theorem c9_passthrough_identity (source : libevdev) (dest : evemu_device)
    (destfd : Int) (event : input_event)
    (h : event.type ≠ EV_ABS ∨
      (event.code ≠ ABS_X ∧ event.code ≠ ABS_Y ∧
        event.code ≠ ABS_MT_POSITION_X ∧ event.code ≠ ABS_MT_POSITION_Y)) :
    handle_event source dest destfd event = event := by
  unfold handle_event pass_event
  rcases h with h | ⟨h1, h2, h3, h4⟩
  · rw [if_pos h]
  · by_cases ht : event.type ≠ EV_ABS
    · rw [if_pos ht]
    · rw [if_neg ht, if_neg]
      simp only [not_or]
      exact ⟨h1, h2, h3, h4⟩

/-- Witness for C9: a relative-axis event (type 2 ≠ 3) passes through
unchanged. -/
theorem c9_passthrough_identity_witness :
    handle_event srcC2 dstC2 0 ⟨0, 0, 2, 0, 5⟩ = ⟨0, 0, 2, 0, 5⟩ :=
  c9_passthrough_identity srcC2 dstC2 0 ⟨0, 0, 2, 0, 5⟩ (by decide)

/-- C10: the dispatcher modifies at most the value field — type, code
and timestamp are always forwarded unchanged — and either the value is
also unchanged, or the event was an `EV_ABS` event on one of the four
positional axis codes. -/
theorem c10_dispatch_frame (source : libevdev) (dest : evemu_device)
    (destfd : Int) (event : input_event) :
    (handle_event source dest destfd event).type = event.type ∧
    (handle_event source dest destfd event).code = event.code ∧
    (handle_event source dest destfd event).time_sec = event.time_sec ∧
    (handle_event source dest destfd event).time_usec = event.time_usec ∧
    ((handle_event source dest destfd event).value = event.value ∨
      (event.type = EV_ABS ∧
        (event.code = ABS_X ∨ event.code = ABS_Y ∨
          event.code = ABS_MT_POSITION_X ∨ event.code = ABS_MT_POSITION_Y))) := by
  unfold handle_event pass_event map_event
  split_ifs with h1 h2
  · exact ⟨rfl, rfl, rfl, rfl, Or.inl rfl⟩
  · exact ⟨rfl, rfl, rfl, rfl, Or.inr ⟨not_not.mp h1, h2⟩⟩
  · exact ⟨rfl, rfl, rfl, rfl, Or.inl rfl⟩

end TouchpadEmulator
